import Mathlib

/-!
Verification development for the Bus-Scheduler repository.

The persisted data model is embedded from `src/backend/postgres/init.sql`:
table rows become structures, the `CHECK`/`UNIQUE`/`DEFAULT` clauses become
guards of the insert and update operations, and the `trg_update_vehicle_geom`
trigger becomes a function applied on every write to the vehicles table.
The frontend dispatch formatter is embedded from
`src/frontend/src/components/NYCBusTracker.tsx`.
Components whose source is not part of the repository snapshot (the Python
scheduling engine) are modelled from the specification and marked as such in
their doc comments.
-/

namespace BusScheduler

/-- A PostGIS point value with its spatial reference identifier, as stored in
a `GEOMETRY(Point, 4326)` column.  Coordinates are modelled as exact integers
since the code only ever copies them (no arithmetic is performed on them). -/
structure Geom where
  srid : Nat
  x : Int
  y : Int
deriving DecidableEq

/-- Embedding of `ST_MakePoint(x, y)`: a bare coordinate pair. -/
def ST_MakePoint (x y : Int) : Int × Int := (x, y)

/-- Embedding of `ST_SetSRID(p, srid)`. -/
def ST_SetSRID (p : Int × Int) (srid : Nat) : Geom := ⟨srid, p.1, p.2⟩

/-- The values allowed by the `CHECK` constraint on `vehicles_realtime.status`
in `init.sql`: `CHECK (status IN ('in_service', 'available', 'maintenance'))`. -/
def vehicleStatuses : List String := ["in_service", "available", "maintenance"]

/-- The values allowed by the `CHECK` constraint on
`hourly_dispatch_schedule.status` in `init.sql`:
`CHECK (status IN ('pending', 'in_progress', 'completed', 'cancelled'))`. -/
def tripStatuses : List String := ["pending", "in_progress", "completed", "cancelled"]

/-- A row of the `vehicles_realtime` table (`init.sql`). -/
structure VehicleRow where
  vehicle_id : String
  current_lat : Int
  current_lon : Int
  current_occupancy : Int
  total_capacity : Int
  assigned_trip_id : Option String
  status : String
  home_depot_id : Option String
  geom : Option Geom
deriving DecidableEq

/-- Embedding of the trigger function `update_vehicle_geom` of `init.sql`:
`NEW.geom = ST_SetSRID(ST_MakePoint(NEW.current_lon, NEW.current_lat), 4326)`. -/
def update_vehicle_geom (r : VehicleRow) : VehicleRow :=
  { r with geom := some (ST_SetSRID (ST_MakePoint r.current_lon r.current_lat) 4326) }

/-- A row of the `hourly_dispatch_schedule` table (`init.sql`). -/
structure ScheduleRow where
  schedule_id : Nat
  route_id : String
  trip_id : String
  vehicle_id : String
  scheduled_departure_time : Int
  status : String
deriving DecidableEq

/-- A row of the `route_demand_predictions` table (`init.sql`).  The
`prediction_timestamp` (the hour the prediction is valid for) and the
`generated_at` timestamp are modelled as naturals. -/
structure PredictionRow where
  prediction_id : Nat
  prediction_timestamp : Nat
  route_id : String
  predicted_passengers : Int
  generated_at : Nat
deriving DecidableEq

/-- The columns of the `routes` table as declared in `init.sql`:
`route_id`, `route_short_name`, `route_long_name`, `route_type`,
`start_stop_id` — and no others. -/
def routesColumns : List String :=
  ["route_id", "route_short_name", "route_long_name", "route_type", "start_stop_id"]

/-- The persisted state relevant to the claims: the vehicles, dispatch-schedule
and predictions tables, the two `SERIAL` counters, and a clock supplying the
monotonically increasing `NOW()` used by the `generated_at` default. -/
structure DB where
  vehicles : List VehicleRow
  schedule : List ScheduleRow
  predictions : List PredictionRow
  nextScheduleId : Nat
  nextPredictionId : Nat
  now : Nat
deriving DecidableEq

/-- The freshly initialised database: all tables empty, serial counters at 1. -/
def DB.empty : DB := ⟨[], [], [], 1, 1, 0⟩

/-- Insert into `vehicles_realtime`: rejected on a duplicate primary key or a
status outside the `CHECK` list; the `BEFORE INSERT` trigger
`trg_update_vehicle_geom` rewrites the row's geometry before it is stored. -/
def insertVehicle (db : DB) (r : VehicleRow) : Option DB :=
  if ∃ v ∈ db.vehicles, v.vehicle_id = r.vehicle_id then none
  else if r.status ∈ vehicleStatuses then
    some { db with vehicles := db.vehicles ++ [update_vehicle_geom r] }
  else none

/-- Update of the `vehicles_realtime` row keyed by `r.vehicle_id` to the new
column values `r`: rejected when the new status violates the `CHECK`
constraint; the `BEFORE UPDATE` trigger rewrites the geometry of the stored
row. -/
def updateVehicle (db : DB) (r : VehicleRow) : Option DB :=
  if r.status ∈ vehicleStatuses then
    some { db with vehicles := db.vehicles.map fun v =>
      if v.vehicle_id = r.vehicle_id then update_vehicle_geom r else v }
  else none

/-- Insert into `hourly_dispatch_schedule`: `schedule_id` is drawn from the
`SERIAL` counter, an omitted status falls back to the column default
`'pending'`, and the insert is rejected exactly when the `UNIQUE` constraint
on `trip_id`, the `CHECK` constraint on `status`, or the foreign-key
reference to `vehicles_realtime` is violated. -/
def insertSchedule (db : DB) (rt trip veh : String) (dep : Int)
    (st? : Option String) : Option DB :=
  if ∃ r ∈ db.schedule, r.trip_id = trip then none
  else if st?.getD "pending" ∈ tripStatuses then
    if ∃ v ∈ db.vehicles, v.vehicle_id = veh then
      some { db with
        schedule := db.schedule ++
          [⟨db.nextScheduleId, rt, trip, veh, dep, st?.getD "pending"⟩],
        nextScheduleId := db.nextScheduleId + 1 }
    else none
  else none

/-- Status update of the `hourly_dispatch_schedule` row keyed by `sid`
(trip lifecycle transitions are driven externally): rejected when the new
status violates the `CHECK` constraint. -/
def updateScheduleStatus (db : DB) (sid : Nat) (st : String) : Option DB :=
  if st ∈ tripStatuses then
    some { db with schedule := db.schedule.map fun r =>
      if r.schedule_id = sid then { r with status := st } else r }
  else none

/-- Insert into `route_demand_predictions`: no uniqueness constraint exists on
`(prediction_timestamp, route_id)`, so the insert always succeeds and simply
appends a row; `prediction_id` comes from the `SERIAL` counter and
`generated_at` from the `DEFAULT NOW()` clock, which then advances. -/
def insertPrediction (db : DB) (hour : Nat) (rt : String) (passengers : Int) : DB :=
  { db with
    predictions := db.predictions ++
      [⟨db.nextPredictionId, hour, rt, passengers, db.now⟩],
    nextPredictionId := db.nextPredictionId + 1,
    now := db.now + 1 }

/-- The reachable states of the persisted store: everything obtainable from
the freshly initialised database by accepted inserts and updates. -/
inductive Reachable : DB → Prop where
  | init : Reachable DB.empty
  | insVehicle {db : DB} {r : VehicleRow} {db2 : DB} :
      Reachable db → insertVehicle db r = some db2 → Reachable db2
  | updVehicle {db : DB} {r : VehicleRow} {db2 : DB} :
      Reachable db → updateVehicle db r = some db2 → Reachable db2
  | insSchedule {db : DB} {rt trip veh : String} {dep : Int}
      {st? : Option String} {db2 : DB} :
      Reachable db → insertSchedule db rt trip veh dep st? = some db2 → Reachable db2
  | updSchedule {db : DB} {sid : Nat} {st : String} {db2 : DB} :
      Reachable db → updateScheduleStatus db sid st = some db2 → Reachable db2
  | insPred {db : DB} {hour : Nat} {rt : String} {p : Int} :
      Reachable db → Reachable (insertPrediction db hour rt p)

-- ============================ Frontend model ============================

/-- The raw dispatch record served by the read surface, as declared by the
`DispatchAPIResponse` interface in `NYCBusTracker.tsx`. -/
structure DispatchAPIResponse where
  schedule_id : Nat
  vehicle_id : String
  route_id : String
  scheduled_departure_time : String
  predicted_passengers : Option Int
deriving DecidableEq

/-- The formatted dispatch entry built for the sidebar, as declared by the
`Dispatch` interface in `NYCBusTracker.tsx`. -/
structure Dispatch where
  id : String
  busId : String
  route : String
  time : String
  density : String
  densityColor : String
deriving DecidableEq

/-- JavaScript `d.predicted_passengers || 0`: `null` and `0` are falsy and
yield `0`, any other number passes through. -/
def jsOrZero (p : Option Int) : Int :=
  match p with
  | none => 0
  | some v => if v = 0 then 0 else v

/-- The dispatch formatter of `fetchData` in `NYCBusTracker.tsx`.  Locale time
formatting (`toLocaleTimeString`) is environment-dependent and passed in as a
function. -/
def formatDispatch (fmtTime : String → String) (d : DispatchAPIResponse) : Dispatch :=
  let densityVal := jsOrZero d.predicted_passengers
  let density := if 150 < densityVal then "High"
    else if 50 < densityVal then "Medium" else "Low"
  { id := "dispatch-" ++ toString d.schedule_id
    busId := d.vehicle_id
    route := d.route_id
    time := fmtTime d.scheduled_departure_time
    density := density
    densityColor := if density = "High" then "#DC3545"
      else if density = "Medium" then "#FFC107" else "#28A745" }

/-- The on-screen legend text for the medium density band in
`NYCBusTracker.tsx` (the map legend panel). -/
def legendMediumLabel : String := "Medium (50-150)"

-- ==================== Spec-modelled engine components ====================

/-- Modelled from the spec: the Headway Calculator of §4.2 (the Python engine
source is not in the repository snapshot).  `requiredVehicles = ceil(P / C)`,
minimum 1 if `P > 0`, else `0`. -/
def requiredVehicles (p c : Nat) : Nat :=
  if p = 0 then 0 else max 1 ((p + c - 1) / c)

/-- Modelled from the spec: `headwaySeconds = 3600 / requiredVehicles` when
`requiredVehicles > 0` (§4.2; engine source missing from the snapshot). -/
def headwaySeconds (p c : Nat) : Nat := 3600 / requiredVehicles p c

/-- A route as seen by the Priority Scorer: identifier, predicted demand,
importance weight, and the vehicle count required by the Headway Calculator. -/
structure ScoredRoute where
  routeId : String
  predictedDemand : Nat
  importanceWeight : Nat
  required : Nat
deriving DecidableEq

/-- Modelled from the spec: the default priority score of §4.3,
`score = predictedDemand * (1 + importanceWeight)` (engine source missing
from the snapshot). -/
def score (d w : Nat) : Nat := d * (1 + w)

/-- The priority score of a route. -/
def routeScore (r : ScoredRoute) : Nat := score r.predictedDemand r.importanceWeight

/-- Modelled from the spec: the priority order of §4.3 — descending by score,
ties broken by route identifier for determinism. -/
def priorityLE (a b : ScoredRoute) : Prop :=
  routeScore b < routeScore a ∨ (routeScore a = routeScore b ∧ a.routeId ≤ b.routeId)

instance : DecidableRel priorityLE := fun a b =>
  inferInstanceAs (Decidable
    (routeScore b < routeScore a ∨ (routeScore a = routeScore b ∧ a.routeId ≤ b.routeId)))

instance : IsTotal ScoredRoute priorityLE where
  total a b := by
    rcases Nat.lt_trichotomy (routeScore a) (routeScore b) with h | h | h
    · exact Or.inr (Or.inl h)
    · rcases le_total a.routeId b.routeId with hid | hid
      · exact Or.inl (Or.inr ⟨h, hid⟩)
      · exact Or.inr (Or.inr ⟨h.symm, hid⟩)
    · exact Or.inl (Or.inl h)

instance : IsTrans ScoredRoute priorityLE where
  trans a b c hab hbc := by
    rcases hab with hab | ⟨hab, haid⟩
    · rcases hbc with hbc | ⟨hbc, _⟩
      · exact Or.inl (Nat.lt_trans hbc hab)
      · exact Or.inl (hbc ▸ hab)
    · rcases hbc with hbc | ⟨hbc, hbid⟩
      · exact Or.inl (hab ▸ hbc)
      · exact Or.inr ⟨hab.trans hbc, le_trans haid hbid⟩

/-- The routes in the order the Spatial Assignment Engine consumes them:
sorted by the spec's priority order. -/
def sortRoutes (l : List ScoredRoute) : List ScoredRoute :=
  l.insertionSort priorityLE

/-- Modelled from the spec: greedy consumption of the shrinking fleet in
priority order (§4.3/§4.4; engine source missing from the snapshot).  Each
route receives `min required remaining`, never blocking the cycle. -/
def allocate (fleet : Nat) : List ScoredRoute → List (String × Nat)
  | [] => []
  | r :: rs =>
      (r.routeId, min r.required fleet) :: allocate (fleet - min r.required fleet) rs

/-- Modelled from the spec: the supersede-by-recency read of the predictions
table (§3/§6; the query layer is not in the repository snapshot).  Among the
physical rows, the one with the greatest `generated_at` wins. -/
def laterPred (acc : Option PredictionRow) (p : PredictionRow) : Option PredictionRow :=
  match acc with
  | none => some p
  | some q => if q.generated_at < p.generated_at then some p else some q

/-- The physical rows of the predictions table matching a (route, hour) key. -/
def matchingPredictions (db : DB) (rt : String) (hour : Nat) : List PredictionRow :=
  db.predictions.filter fun p => p.route_id = rt ∧ p.prediction_timestamp = hour

/-- The most recently generated row of a list, if any. -/
def pickLatest (l : List PredictionRow) : Option PredictionRow :=
  l.foldl laterPred none

/-- Modelled from the spec: `getPredictions`-style lookup returning the single
active (most recently generated) predicted passenger count for a
(route, hour) key. -/
def lookupPrediction (db : DB) (rt : String) (hour : Nat) : Option Int :=
  (pickLatest (matchingPredictions db rt hour)).map PredictionRow.predicted_passengers

-- ==================== Concrete states used by witnesses ====================

/-- A single available vehicle as submitted for insertion. -/
def vehicleV1 : VehicleRow := ⟨"V1", 7, 3, 0, 60, none, "available", none, none⟩

/-- The database after inserting `vehicleV1` into the empty store. -/
def dbWithV1 : DB := { DB.empty with vehicles := [update_vehicle_geom vehicleV1] }

/-- The first pending trip row assigned to vehicle `V1`. -/
def scheduleRow1 : ScheduleRow := ⟨1, "R1", "T1", "V1", 0, "pending"⟩

/-- A second pending trip row, also assigned to vehicle `V1`. -/
def scheduleRow2 : ScheduleRow := ⟨2, "R1", "T2", "V1", 1200, "pending"⟩

/-- The database holding one pending trip for `V1`. -/
def dbOneTrip : DB :=
  { dbWithV1 with schedule := [scheduleRow1], nextScheduleId := 2 }

/-- The database holding two simultaneously pending trips for `V1`. -/
def dbTwoTrips : DB :=
  { dbWithV1 with schedule := [scheduleRow1, scheduleRow2], nextScheduleId := 3 }

/-- A high-demand route (the spec's example route R1). -/
def routeA : ScoredRoute := ⟨"R1", 180, 0, 3⟩

/-- A low-demand route (the spec's example route R2). -/
def routeB : ScoredRoute := ⟨"R2", 40, 0, 1⟩

-- ==================== Helper lemmas ====================

/-- A status-only update of schedule rows leaves the trip identifiers as they
were. -/
lemma mapTripId_update (l : List ScheduleRow) (sid : Nat) (st : String) :
    ((l.map fun r => if r.schedule_id = sid then { r with status := st } else r).map
      ScheduleRow.trip_id) = l.map ScheduleRow.trip_id := by
  induction l with
  | nil => rfl
  | cons a l ih =>
    simp only [List.map_cons, ih, List.cons.injEq, and_true]
    split <;> rfl

/-- The store invariant maintained by every accepted write. -/
def DBInv (db : DB) : Prop :=
  (db.schedule.map ScheduleRow.trip_id).Nodup ∧
  (∀ r ∈ db.schedule, r.status ∈ tripStatuses) ∧
  (∀ v ∈ db.vehicles, v.status ∈ vehicleStatuses) ∧
  (∀ v ∈ db.vehicles,
    v.geom = some (ST_SetSRID (ST_MakePoint v.current_lon v.current_lat) 4326)) ∧
  (∀ p ∈ db.predictions, p.generated_at < db.now)

lemma reachable_inv {db : DB} (h : Reachable db) : DBInv db := by
  induction h with
  | init =>
    refine ⟨by simp [DB.empty], ?_, ?_, ?_, ?_⟩ <;> intro x hx <;> simp [DB.empty] at hx
  | insVehicle hr heq ih =>
    rename_i db r db2
    obtain ⟨h1, h2, h3, h4, h5⟩ := ih
    unfold insertVehicle at heq
    split at heq
    · exact absurd heq (by simp)
    · split at heq
      · next hst =>
        injection heq with heq2
        subst heq2
        refine ⟨h1, h2, ?_, ?_, h5⟩
        · intro v hv
          rcases List.mem_append.mp hv with hv2 | hv2
          · exact h3 v hv2
          · rw [List.mem_singleton.mp hv2]
            simpa [update_vehicle_geom] using hst
        · intro v hv
          rcases List.mem_append.mp hv with hv2 | hv2
          · exact h4 v hv2
          · rw [List.mem_singleton.mp hv2]
            rfl
      · exact absurd heq (by simp)
  | updVehicle hr heq ih =>
    rename_i db r db2
    obtain ⟨h1, h2, h3, h4, h5⟩ := ih
    unfold updateVehicle at heq
    split at heq
    · next hst =>
      injection heq with heq2
      subst heq2
      refine ⟨h1, h2, ?_, ?_, h5⟩
      · intro v hv
        obtain ⟨w, hw, rfl⟩ := List.mem_map.mp hv
        split
        · simpa [update_vehicle_geom] using hst
        · exact h3 w hw
      · intro v hv
        obtain ⟨w, hw, rfl⟩ := List.mem_map.mp hv
        split
        · rfl
        · exact h4 w hw
    · exact absurd heq (by simp)
  | insSchedule hr heq ih =>
    rename_i db rt trip veh dep st? db2
    obtain ⟨h1, h2, h3, h4, h5⟩ := ih
    unfold insertSchedule at heq
    split at heq
    · exact absurd heq (by simp)
    · next hdup =>
      split at heq
      · next hst =>
        split at heq
        · injection heq with heq2
          subst heq2
          refine ⟨?_, ?_, h3, h4, h5⟩
          · simp only [List.map_append, List.map_cons, List.map_nil]
            rw [List.nodup_append]
            refine ⟨h1, List.nodup_singleton _, ?_⟩
            intro x hx hx2
            rw [List.mem_singleton.mp hx2] at hx
            obtain ⟨r0, hr0, hr0e⟩ := List.mem_map.mp hx
            exact hdup ⟨r0, hr0, hr0e⟩
          · intro r0 hr0
            rcases List.mem_append.mp hr0 with hr2 | hr2
            · exact h2 r0 hr2
            · rw [List.mem_singleton.mp hr2]
              exact hst
        · exact absurd heq (by simp)
      · exact absurd heq (by simp)
  | updSchedule hr heq ih =>
    rename_i db sid st db2
    obtain ⟨h1, h2, h3, h4, h5⟩ := ih
    unfold updateScheduleStatus at heq
    split at heq
    · next hst =>
      injection heq with heq2
      subst heq2
      refine ⟨?_, ?_, h3, h4, h5⟩
      · show ((db.schedule.map fun r =>
          if r.schedule_id = sid then { r with status := st } else r).map
            ScheduleRow.trip_id).Nodup
        rw [mapTripId_update]
        exact h1
      · intro r0 hr0
        obtain ⟨w, hw, rfl⟩ := List.mem_map.mp hr0
        split
        · exact hst
        · exact h2 w hw
    · exact absurd heq (by simp)
  | insPred hr ih =>
    rename_i db hour rt p
    obtain ⟨h1, h2, h3, h4, h5⟩ := ih
    refine ⟨h1, h2, h3, h4, ?_⟩
    intro q hq
    simp only [insertPrediction, List.mem_append, List.mem_singleton] at hq
    show q.generated_at < db.now + 1
    rcases hq with hq | hq
    · exact Nat.lt_succ_of_lt (h5 q hq)
    · rw [hq]
      exact Nat.lt_succ_self _

/-- The accumulator-threaded result of `laterPred` comes from the accumulator
or from the list. -/
lemma foldl_laterPred_mem :
    ∀ (l : List PredictionRow) (acc : Option PredictionRow) (q : PredictionRow),
      l.foldl laterPred acc = some q → acc = some q ∨ q ∈ l := by
  intro l
  induction l with
  | nil =>
    intro acc q h
    exact Or.inl h
  | cons a l ih =>
    intro acc q h
    rw [List.foldl_cons] at h
    rcases ih (laterPred acc a) q h with h2 | h2
    · cases acc with
      | none =>
        injection h2 with h3
        exact Or.inr (h3 ▸ List.mem_cons_self a l)
      | some b =>
        simp only [laterPred] at h2
        split at h2
        · injection h2 with h3
          exact Or.inr (h3 ▸ List.mem_cons_self a l)
        · exact Or.inl h2
    · exact Or.inr (List.mem_cons_of_mem a h2)

/-- The row selected by `laterPred` carries a `generated_at` at least as large
as the accumulator's and as every list element's. -/
lemma foldl_laterPred_le :
    ∀ (l : List PredictionRow) (acc : Option PredictionRow) (q : PredictionRow),
      l.foldl laterPred acc = some q →
      (∀ r : PredictionRow, acc = some r → r.generated_at ≤ q.generated_at) ∧
      (∀ r ∈ l, r.generated_at ≤ q.generated_at) := by
  intro l
  induction l with
  | nil =>
    intro acc q h
    refine ⟨?_, by simp⟩
    intro r hr
    rw [hr] at h
    injection h with h2
    rw [h2]
  | cons a l ih =>
    intro acc q h
    rw [List.foldl_cons] at h
    obtain ⟨hacc, hl⟩ := ih (laterPred acc a) q h
    constructor
    · intro r hr
      subst hr
      by_cases hcmp : r.generated_at < a.generated_at
      · have h3 := hacc a (by simp [laterPred, hcmp])
        omega
      · exact hacc r (by simp [laterPred, hcmp])
    · intro r hr
      rcases List.mem_cons.mp hr with rfl | hr2
      · cases acc with
        | none => exact hacc r rfl
        | some b =>
          by_cases hcmp : b.generated_at < r.generated_at
          · exact hacc r (by simp [laterPred, hcmp])
          · have h3 := hacc b (by simp [laterPred, hcmp])
            omega
      · exact hl r hr2

lemma pickLatest_mem {l : List PredictionRow} {q : PredictionRow}
    (h : pickLatest l = some q) : q ∈ l := by
  rcases foldl_laterPred_mem l none q h with h2 | h2
  · exact absurd h2 (by simp)
  · exact h2

lemma pickLatest_le {l : List PredictionRow} {q : PredictionRow}
    (h : pickLatest l = some q) : ∀ r ∈ l, r.generated_at ≤ q.generated_at :=
  (foldl_laterPred_le l none q h).2

/-- With no fleet left, every route receives zero vehicles. -/
lemma allocate_zero_snd : ∀ (l : List ScoredRoute), ∀ x ∈ allocate 0 l, x.2 = 0 := by
  intro l
  induction l with
  | nil =>
    intro x hx
    simp [allocate] at hx
  | cons r rs ih =>
    intro x hx
    simp only [allocate, Nat.min_zero, Nat.sub_zero] at hx
    rcases List.mem_cons.mp hx with rfl | hx2
    · rfl
    · exact ih x hx2

lemma allocate_length :
    ∀ (l : List ScoredRoute) (fleet : Nat), (allocate fleet l).length = l.length := by
  intro l
  induction l with
  | nil => intro fleet; rfl
  | cons r rs ih => intro fleet; simp [allocate, ih]

/-- If a later route received any vehicle, every earlier route received its
full requirement: the greedy pool only runs dry once. -/
lemma allocate_earlier_full (d0 : ScoredRoute) :
    ∀ (l : List ScoredRoute) (fleet i j : Nat), i < j →
      0 < ((allocate fleet l).getD j ("", 0)).2 →
      ((allocate fleet l).getD i ("", 0)).2 = (l.getD i d0).required := by
  intro l
  induction l with
  | nil =>
    intro fleet i j hij hpos
    simp [allocate] at hpos
  | cons r rs ih =>
    intro fleet i j hij hpos
    cases j with
    | zero => omega
    | succ m =>
      simp only [allocate, List.getD_cons_succ] at hpos
      cases i with
      | zero =>
        simp only [allocate, List.getD_cons_zero]
        by_cases hfull : r.required ≤ fleet
        · simp [Nat.min_eq_left hfull]
        · exfalso
          have hmin : min r.required fleet = fleet := Nat.min_eq_right (by omega)
          rw [hmin, Nat.sub_self] at hpos
          by_cases hm : m < (allocate 0 rs).length
          · have hmem : (allocate 0 rs).getD m ("", 0) ∈ allocate 0 rs := by
              rw [List.getD_eq_getElem _ _ hm]
              exact List.getElem_mem hm
            have h0 := allocate_zero_snd rs _ hmem
            omega
          · rw [List.getD_eq_default _ _ (by omega)] at hpos
            simp at hpos
      | succ k =>
        simp only [allocate, List.getD_cons_succ]
        exact ih (fleet - min r.required fleet) k m (by omega) hpos

/-- A fold step taken against a strictly older accumulator keeps the new row. -/
lemma laterPred_newer {acc : Option PredictionRow} {p : PredictionRow}
    (h : ∀ q, acc = some q → q.generated_at < p.generated_at) :
    laterPred acc p = some p := by
  cases acc with
  | none => rfl
  | some q => simp [laterPred, h q rfl]

-- ==================== Claim theorems ====================

/-- C1, counterexample: the persisted dispatch-schedule store does NOT reject
an insert whose vehicle already has a pending row.  From a reachable state
holding one pending trip for vehicle V1, a second insert for V1 is accepted,
reaching a state with two distinct simultaneously pending rows for V1. -/
theorem second_pending_trip_accepted :
    Reachable dbOneTrip ∧
    scheduleRow1 ∈ dbOneTrip.schedule ∧
    scheduleRow1.vehicle_id = "V1" ∧ scheduleRow1.status = "pending" ∧
    insertSchedule dbOneTrip "R1" "T2" "V1" 1200 none = some dbTwoTrips ∧
    Reachable dbTwoTrips ∧
    scheduleRow1 ∈ dbTwoTrips.schedule ∧ scheduleRow2 ∈ dbTwoTrips.schedule ∧
    scheduleRow1 ≠ scheduleRow2 ∧
    scheduleRow1.vehicle_id = scheduleRow2.vehicle_id ∧
    scheduleRow2.status = "pending" := by
  have hv : insertVehicle DB.empty vehicleV1 = some dbWithV1 := by decide
  have h1 : insertSchedule dbWithV1 "R1" "T1" "V1" 0 none = some dbOneTrip := by decide
  have h2 : insertSchedule dbOneTrip "R1" "T2" "V1" 1200 none = some dbTwoTrips := by decide
  have r1 : Reachable dbOneTrip :=
    Reachable.insSchedule (Reachable.insVehicle Reachable.init hv) h1
  exact ⟨r1, by decide, by decide, by decide, h2,
    Reachable.insSchedule r1 h2, by decide, by decide, by decide, by decide, by decide⟩

/-- C1, amended: an insert into the dispatch-schedule store is rejected
exactly when its trip identifier duplicates an existing row's, its effective
status violates the CHECK constraint, or its vehicle is absent from the
vehicles table; whether the vehicle already has a pending or in_progress row
plays no role, so uniqueness of active assignment is not enforced by the
store. -/
theorem insertSchedule_accepted_iff :
    ∀ (db : DB) (rt trip veh : String) (dep : Int) (st? : Option String),
      (∃ db2, insertSchedule db rt trip veh dep st? = some db2) ↔
      ((¬ ∃ r ∈ db.schedule, r.trip_id = trip) ∧
        st?.getD "pending" ∈ tripStatuses ∧
        ∃ v ∈ db.vehicles, v.vehicle_id = veh) := by
  intro db rt trip veh dep st?
  unfold insertSchedule
  split
  · next hdup => simp [hdup]
  · next hdup =>
    split
    · next hst =>
      split
      · next hveh => simp [hdup, hst, hveh]
      · next hveh => simp [hdup, hst, hveh]
    · next hst => simp [hdup, hst]

/-- C2: in every reachable state the persisted trip identifiers are pairwise
distinct (any two distinct schedule rows carry different trip identifiers),
and a row inserted without an explicit status is persisted with the default
status "pending". -/
theorem trip_ids_unique_default_pending :
    (∀ db : DB, Reachable db →
      (db.schedule.map ScheduleRow.trip_id).Nodup ∧
      ∀ r1 ∈ db.schedule, ∀ r2 ∈ db.schedule, r1 ≠ r2 → r1.trip_id ≠ r2.trip_id) ∧
    (∀ (db : DB) (rt trip veh : String) (dep : Int) (db2 : DB),
      insertSchedule db rt trip veh dep none = some db2 →
      db2.schedule =
        db.schedule ++ [⟨db.nextScheduleId, rt, trip, veh, dep, "pending"⟩]) := by
  constructor
  · intro db hdb
    have h1 := (reachable_inv hdb).1
    refine ⟨h1, ?_⟩
    intro r1 hr1 r2 hr2 hne he
    exact hne (List.inj_on_of_nodup_map h1 hr1 hr2 he)
  · intro db rt trip veh dep db2 heq
    unfold insertSchedule at heq
    split at heq
    · exact absurd heq (by simp)
    · split at heq
      · split at heq
        · injection heq with heq2
          subst heq2
          rfl
        · exact absurd heq (by simp)
      · exact absurd heq (by simp)

/-- C2, witness: concrete two-trip state with distinct trip identifiers, and a
concrete default-status insert. -/
theorem trip_ids_unique_default_pending_witness :
    (dbTwoTrips.schedule.map ScheduleRow.trip_id).Nodup ∧
    dbOneTrip.schedule = dbWithV1.schedule ++ [⟨1, "R1", "T1", "V1", 0, "pending"⟩] := by
  have hv : insertVehicle DB.empty vehicleV1 = some dbWithV1 := by decide
  have h1 : insertSchedule dbWithV1 "R1" "T1" "V1" 0 none = some dbOneTrip := by decide
  have h2 : insertSchedule dbOneTrip "R1" "T2" "V1" 1200 none = some dbTwoTrips := by decide
  have r2 : Reachable dbTwoTrips :=
    Reachable.insSchedule
      (Reachable.insSchedule (Reachable.insVehicle Reachable.init hv) h1) h2
  exact ⟨(trip_ids_unique_default_pending.1 dbTwoTrips r2).1,
    trip_ids_unique_default_pending.2 dbWithV1 "R1" "T1" "V1" 0 dbOneTrip h1⟩

/-- C3: the Headway Calculator returns ceil(P/C) vehicles for positive demand
and capacity (the least count whose total capacity covers the demand, at
least 1), zero vehicles for zero demand, and a headway of 3600 divided by the
vehicle count; 180 passengers at capacity 60 give 3 vehicles every 1200 s,
40 passengers give 1 vehicle every 3600 s. -/
theorem headway_calculator_spec :
    (∀ p c : Nat, 0 < p → 0 < c →
      p ≤ requiredVehicles p c * c ∧
      (∀ n : Nat, p ≤ n * c → requiredVehicles p c ≤ n) ∧
      1 ≤ requiredVehicles p c) ∧
    (∀ c : Nat, requiredVehicles 0 c = 0) ∧
    (∀ p c : Nat, 0 < requiredVehicles p c →
      headwaySeconds p c = 3600 / requiredVehicles p c) ∧
    requiredVehicles 180 60 = 3 ∧ headwaySeconds 180 60 = 1200 ∧
    requiredVehicles 40 60 = 1 ∧ headwaySeconds 40 60 = 3600 := by
  refine ⟨?_, ?_, ?_, by decide, by decide, by decide, by decide⟩
  · intro p c hp hc
    have hq : requiredVehicles p c = (p - 1) / c + 1 := by
      unfold requiredVehicles
      rw [if_neg (by omega)]
      have hpc : p + c - 1 = (p - 1) + c := by omega
      rw [hpc, Nat.add_div_right _ hc]
      exact max_eq_right (Nat.succ_le_succ (Nat.zero_le _))
    refine ⟨?_, ?_, ?_⟩
    · rw [hq, Nat.add_mul, Nat.one_mul]
      have h2 : p - 1 < (p - 1) / c * c + c := Nat.lt_div_mul_add hc
      calc p = p - 1 + 1 := (Nat.succ_pred_eq_of_pos hp).symm
      _ ≤ (p - 1) / c * c + c := Nat.succ_le_of_lt h2
    · intro n hn
      rw [hq]
      have h3 : (p - 1) / c < n := by
        rw [Nat.div_lt_iff_lt_mul hc]
        exact Nat.lt_of_lt_of_le (Nat.sub_lt hp Nat.one_pos) hn
      exact Nat.succ_le_of_lt h3
    · rw [hq]
      exact Nat.succ_le_succ (Nat.zero_le _)
  · intro c
    rfl
  · intro p c h
    rfl

/-- C3, witness: the ceiling characterisation evaluated at the spec's example
of 180 predicted passengers and capacity 60. -/
theorem headway_calculator_spec_witness :
    180 ≤ requiredVehicles 180 60 * 60 ∧ requiredVehicles 180 60 ≤ 3 ∧
      1 ≤ requiredVehicles 180 60 := by
  refine ⟨(headway_calculator_spec.1 180 60 (by decide) (by decide)).1,
    (headway_calculator_spec.1 180 60 (by decide) (by decide)).2.1 3 (by decide),
    (headway_calculator_spec.1 180 60 (by decide) (by decide)).2.2⟩

/-- C4: the default priority score is monotone in predicted demand and in
importance weight, the scorer orders routes descending by score with ties
broken by route identifier (a sorted permutation of the input), and under
greedy fleet consumption in that order a strictly higher-scoring route has
received its full requirement whenever a lower-scoring route received any
vehicle. -/
theorem priority_scorer_spec :
    (∀ d1 d2 w : Nat, d1 ≤ d2 → score d1 w ≤ score d2 w) ∧
    (∀ d w1 w2 : Nat, w1 ≤ w2 → score d w1 ≤ score d w2) ∧
    (∀ l : List ScoredRoute, (sortRoutes l).Sorted priorityLE ∧ List.Perm (sortRoutes l) l) ∧
    (∀ (d0 : ScoredRoute) (fleet : Nat) (l : List ScoredRoute) (i j : Nat),
      i < (sortRoutes l).length → j < (sortRoutes l).length →
      routeScore ((sortRoutes l).getD j d0) < routeScore ((sortRoutes l).getD i d0) →
      0 < ((allocate fleet (sortRoutes l)).getD j ("", 0)).2 →
      ((allocate fleet (sortRoutes l)).getD i ("", 0)).2 =
        ((sortRoutes l).getD i d0).required) := by
  refine ⟨?_, ?_, ?_, ?_⟩
  · intro d1 d2 w h
    exact Nat.mul_le_mul_right _ h
  · intro d w1 w2 h
    exact Nat.mul_le_mul_left _ (by omega)
  · intro l
    exact ⟨List.sorted_insertionSort priorityLE l, List.perm_insertionSort priorityLE l⟩
  · intro d0 fleet l i j hi hj hscore hpos
    have hsorted : (sortRoutes l).Sorted priorityLE := List.sorted_insertionSort priorityLE l
    rw [List.getD_eq_getElem _ _ hj, List.getD_eq_getElem _ _ hi] at hscore
    have hij : i < j := by
      rcases Nat.lt_trichotomy i j with h | h | h
      · exact h
      · exfalso
        subst h
        exact absurd hscore (lt_irrefl _)
      · exfalso
        have hfin : (⟨j, hj⟩ : Fin (sortRoutes l).length) < ⟨i, hi⟩ :=
          Fin.mk_lt_mk.mpr h
        have hrel := List.Sorted.rel_get_of_lt hsorted hfin
        simp only [List.get_eq_getElem] at hrel
        unfold priorityLE at hrel
        rcases hrel with hrel | ⟨hrel, _⟩
        · omega
        · omega
    exact allocate_earlier_full d0 (sortRoutes l) fleet i j hij hpos

/-- C4, witness: the spec's two example routes, fleet of four: the
higher-scoring route R1 receives its full three vehicles while R2 receives
one. -/
theorem priority_scorer_spec_witness :
    score 40 0 ≤ score 180 0 ∧
    score 180 0 ≤ score 180 1 ∧
    ((allocate 4 (sortRoutes [routeB, routeA])).getD 0 ("", 0)).2 =
      ((sortRoutes [routeB, routeA]).getD 0 routeB).required := by
  refine ⟨priority_scorer_spec.1 40 180 0 (by decide),
    priority_scorer_spec.2.1 180 0 1 (by decide),
    priority_scorer_spec.2.2.2 routeB 4 [routeB, routeA] 0 1 (by decide) (by decide)
      (by decide) (by decide)⟩

/-- C5: inserting a later-generated prediction for an existing (route, hour)
key supersedes the earlier rows — the lookup then returns exactly the new
predicted count — and the lookup always selects a most recently generated
matching row. -/
theorem predictions_supersede_by_recency :
    (∀ (db : DB) (rt : String) (hour : Nat) (p : Int), Reachable db →
      lookupPrediction (insertPrediction db hour rt p) rt hour = some p) ∧
    (∀ (db : DB) (rt : String) (hour : Nat) (q : PredictionRow),
      pickLatest (matchingPredictions db rt hour) = some q →
      q ∈ matchingPredictions db rt hour ∧
        ∀ r ∈ matchingPredictions db rt hour, r.generated_at ≤ q.generated_at) := by
  constructor
  · intro db rt hour p hdb
    have h5 := (reachable_inv hdb).2.2.2.2
    show (pickLatest (matchingPredictions (insertPrediction db hour rt p) rt hour)).map
      PredictionRow.predicted_passengers = some p
    have hmatch : matchingPredictions (insertPrediction db hour rt p) rt hour =
        matchingPredictions db rt hour ++ [⟨db.nextPredictionId, hour, rt, p, db.now⟩] := by
      unfold matchingPredictions
      simp [insertPrediction, List.filter_append]
    rw [hmatch]
    unfold pickLatest
    rw [List.foldl_append]
    simp only [List.foldl_cons, List.foldl_nil]
    rw [laterPred_newer]
    · rfl
    · intro q hq
      have hqmem : q ∈ matchingPredictions db rt hour := pickLatest_mem hq
      exact h5 q (List.mem_of_mem_filter hqmem)
  · intro db rt hour q hq
    exact ⟨pickLatest_mem hq, pickLatest_le hq⟩

/-- C5, witness: two predictions for the same (route R1, hour 16) key in
generation order; the lookup returns the later value 120. -/
theorem predictions_supersede_by_recency_witness :
    lookupPrediction
      (insertPrediction (insertPrediction DB.empty 16 "R1" 100) 16 "R1" 120) "R1" 16 =
      some 120 :=
  predictions_supersede_by_recency.1 (insertPrediction DB.empty 16 "R1" 100) "R1" 16 120
    (Reachable.insPred Reachable.init)

/-- C6, counterexample: the routes table of init.sql stores no
importance-weight column (nor a capacity column), so persisted route records
carry no operator-configured importance weight. -/
theorem routes_have_no_importance_weight :
    routesColumns.contains "importance_weight" = false ∧
    routesColumns.contains "importance" = false ∧
    routesColumns.contains "capacity" = false := by decide

/-- C6, amended: a persisted route record carries exactly the columns
route_id, route_short_name, route_long_name, route_type and start_stop_id;
no importance-weight and no capacity column exists in the routes table. -/
theorem routes_columns_exact :
    routesColumns =
      ["route_id", "route_short_name", "route_long_name", "route_type",
        "start_stop_id"] ∧
    "importance_weight" ∉ routesColumns ∧ "capacity" ∉ routesColumns := by
  refine ⟨rfl, ?_, ?_⟩ <;> decide

/-- C7: in every reachable state every vehicle row's status is one of
available, in_service, maintenance, and every schedule row's status is one of
pending, in_progress, completed, cancelled; a write carrying any other status
value is rejected by the CHECK constraints. -/
theorem status_enumerations_closed :
    (∀ db : DB, Reachable db →
      (∀ v ∈ db.vehicles,
        v.status = "available" ∨ v.status = "in_service" ∨ v.status = "maintenance") ∧
      (∀ r ∈ db.schedule,
        r.status = "pending" ∨ r.status = "in_progress" ∨
          r.status = "completed" ∨ r.status = "cancelled")) ∧
    (∀ (db : DB) (r : VehicleRow), r.status ∉ vehicleStatuses →
      insertVehicle db r = none ∧ updateVehicle db r = none) ∧
    (∀ (db : DB) (sid : Nat) (st : String), st ∉ tripStatuses →
      updateScheduleStatus db sid st = none) ∧
    (∀ (db : DB) (rt trip veh : String) (dep : Int) (st : String), st ∉ tripStatuses →
      insertSchedule db rt trip veh dep (some st) = none) := by
  refine ⟨?_, ?_, ?_, ?_⟩
  · intro db hdb
    obtain ⟨h1, h2, h3, h4, h5⟩ := reachable_inv hdb
    constructor
    · intro v hv
      have hm := h3 v hv
      simp only [vehicleStatuses, List.mem_cons, List.not_mem_nil, or_false] at hm
      tauto
    · intro r hr
      have hm := h2 r hr
      simp only [tripStatuses, List.mem_cons, List.not_mem_nil, or_false] at hm
      tauto
  · intro db r hbad
    constructor
    · unfold insertVehicle
      by_cases hdup : ∃ v ∈ db.vehicles, v.vehicle_id = r.vehicle_id
      · rw [if_pos hdup]
      · rw [if_neg hdup, if_neg hbad]
    · unfold updateVehicle
      rw [if_neg hbad]
  · intro db sid st hbad
    unfold updateScheduleStatus
    rw [if_neg hbad]
  · intro db rt trip veh dep st hbad
    unfold insertSchedule
    by_cases hdup : ∃ r0 ∈ db.schedule, r0.trip_id = trip
    · rw [if_pos hdup]
    · rw [if_neg hdup, if_neg (by simpa using hbad)]

/-- C7, witness: the reachable one-trip state has only allowed statuses, and
concrete writes carrying the status "bogus" are rejected. -/
theorem status_enumerations_closed_witness :
    (insertVehicle DB.empty ⟨"V2", 0, 0, 0, 60, none, "bogus", none, none⟩ = none ∧
      updateVehicle DB.empty ⟨"V2", 0, 0, 0, 60, none, "bogus", none, none⟩ = none) ∧
    updateScheduleStatus dbOneTrip 1 "bogus" = none ∧
    insertSchedule dbOneTrip "R1" "T9" "V1" 0 (some "bogus") = none ∧
    (scheduleRow1.status = "pending" ∨ scheduleRow1.status = "in_progress" ∨
      scheduleRow1.status = "completed" ∨ scheduleRow1.status = "cancelled") := by
  have hv : insertVehicle DB.empty vehicleV1 = some dbWithV1 := by decide
  have h1 : insertSchedule dbWithV1 "R1" "T1" "V1" 0 none = some dbOneTrip := by decide
  have r1 : Reachable dbOneTrip :=
    Reachable.insSchedule (Reachable.insVehicle Reachable.init hv) h1
  exact ⟨status_enumerations_closed.2.1 DB.empty _ (by decide),
    status_enumerations_closed.2.2.1 dbOneTrip 1 "bogus" (by decide),
    status_enumerations_closed.2.2.2 dbOneTrip "R1" "T9" "V1" 0 "bogus" (by decide),
    (status_enumerations_closed.1 dbOneTrip r1).2 scheduleRow1 (by decide)⟩

/-- C8: the geometry trigger fires on every insert and update of the vehicles
table, rewriting the stored geometry to the SRID-4326 point built from the
row's current_lon and current_lat, so in every reachable state the coordinate
columns and the geometry column agree. -/
theorem vehicle_geom_trigger_consistent :
    (∀ r : VehicleRow, (update_vehicle_geom r).geom =
      some (ST_SetSRID (ST_MakePoint r.current_lon r.current_lat) 4326)) ∧
    (∀ (db : DB) (r : VehicleRow) (db2 : DB), insertVehicle db r = some db2 →
      db2.vehicles = db.vehicles ++ [update_vehicle_geom r]) ∧
    (∀ (db : DB) (r : VehicleRow) (db2 : DB), updateVehicle db r = some db2 →
      db2.vehicles = db.vehicles.map fun v =>
        if v.vehicle_id = r.vehicle_id then update_vehicle_geom r else v) ∧
    (∀ db : DB, Reachable db → ∀ v ∈ db.vehicles,
      v.geom = some (ST_SetSRID (ST_MakePoint v.current_lon v.current_lat) 4326)) := by
  refine ⟨fun r => rfl, ?_, ?_, ?_⟩
  · intro db r db2 heq
    unfold insertVehicle at heq
    split at heq
    · exact absurd heq (by simp)
    · split at heq
      · injection heq with heq2
        subst heq2
        rfl
      · exact absurd heq (by simp)
  · intro db r db2 heq
    unfold updateVehicle at heq
    split at heq
    · injection heq with heq2
      subst heq2
      rfl
    · exact absurd heq (by simp)
  · intro db hdb
    exact (reachable_inv hdb).2.2.2.1

/-- C8, witness: the stored row for vehicle V1 (inserted with lat 7, lon 3 and
no geometry) carries exactly the SRID-4326 point (3, 7). -/
theorem vehicle_geom_trigger_consistent_witness :
    (update_vehicle_geom vehicleV1).geom =
      some (ST_SetSRID (ST_MakePoint vehicleV1.current_lon vehicleV1.current_lat) 4326) ∧
    (update_vehicle_geom vehicleV1).geom = some ⟨4326, 3, 7⟩ := by
  have hv : insertVehicle DB.empty vehicleV1 = some dbWithV1 := by decide
  have r1 : Reachable dbWithV1 := Reachable.insVehicle Reachable.init hv
  exact ⟨vehicle_geom_trigger_consistent.2.2.2 dbWithV1 r1
    (update_vehicle_geom vehicleV1) (by decide), by decide⟩

/-- C9: a dispatch record whose predicted_passengers field is null is
formatted with density "Low" and the green color #28A745, and the label is
never empty — the formatter is a total function. -/
theorem null_prediction_formats_low :
    ∀ (fmtTime : String → String) (sid : Nat) (vid rid dts : String),
      (formatDispatch fmtTime ⟨sid, vid, rid, dts, none⟩).density = "Low" ∧
      (formatDispatch fmtTime ⟨sid, vid, rid, dts, none⟩).densityColor = "#28A745" ∧
      (formatDispatch fmtTime ⟨sid, vid, rid, dts, none⟩).density ≠ "" := by
  intro fmtTime sid vid rid dts
  have h : (formatDispatch fmtTime ⟨sid, vid, rid, dts, none⟩).density = "Low" := rfl
  refine ⟨h, rfl, ?_⟩
  rw [h]
  decide

/-- C10: for a non-null predicted value v the density label is "High" exactly
when v > 150, "Medium" exactly when 50 < v ≤ 150, and "Low" exactly when
v ≤ 50; in particular v = 50 is labeled "Low" and v = 150 "Medium", while the
on-screen legend text describes the medium band as the range 50-150. -/
theorem density_thresholds :
    (∀ (fmtTime : String → String) (sid : Nat) (vid rid dts : String) (v : Int),
      ((formatDispatch fmtTime ⟨sid, vid, rid, dts, some v⟩).density = "High" ↔
        150 < v) ∧
      ((formatDispatch fmtTime ⟨sid, vid, rid, dts, some v⟩).density = "Medium" ↔
        (50 < v ∧ v ≤ 150)) ∧
      ((formatDispatch fmtTime ⟨sid, vid, rid, dts, some v⟩).density = "Low" ↔
        v ≤ 50)) ∧
    (∀ (fmtTime : String → String) (sid : Nat) (vid rid dts : String),
      (formatDispatch fmtTime ⟨sid, vid, rid, dts, some 50⟩).density = "Low" ∧
      (formatDispatch fmtTime ⟨sid, vid, rid, dts, some 150⟩).density = "Medium") ∧
    legendMediumLabel = "Medium (50-150)" := by
  refine ⟨?_, ?_, rfl⟩
  · intro fmtTime sid vid rid dts v
    have hjs : jsOrZero (some v) = v := by
      show (if v = 0 then 0 else v) = v
      split
      · next hz => rw [hz]
      · rfl
    have hd : (formatDispatch fmtTime ⟨sid, vid, rid, dts, some v⟩).density =
        (if 150 < v then "High" else if 50 < v then "Medium" else "Low") := by
      simp [formatDispatch, hjs]
    rw [hd]
    by_cases h1 : 150 < v
    · simp [h1]
      omega
    · by_cases h2 : 50 < v
      · simp [h1, h2]
        omega
      · simp [h1, h2]
        omega
  · intro fmtTime sid vid rid dts
    exact ⟨rfl, rfl⟩

end BusScheduler
